import Mathlib

set_option maxHeartbeats 1000000
set_option maxRecDepth 2000

/-!
Shallow embedding of `src/server.js` (Tu Akarreo calendar availability and
reservation API) and verification of its specification claims.

Modelling conventions:
* JS strings are `List Char`; `String.prototype.includes` is `jsIncludes`,
  `toLowerCase` is `lowerStr` (ASCII range, the range the labels use).
* JS numbers are exact rationals `ℚ`; timestamps (`Date#getTime`) are `ℤ`
  milliseconds since the epoch; `Math.round` is `jsRound`.
* The external Google Calendar service is modelled by the list of events on
  the relevant calendar; `events.list(timeMin, timeMax)` keeps the events
  overlapping the window (end after `timeMin`, start before `timeMax`), the
  documented semantics of that API.
-/

/-- JS `Math.round` on an exact rational: floor of `q + 1/2` (half rounds up),
computed with floor division on the reduced fraction. -/
def jsRound (q : ℚ) : ℤ :=
  Int.fdiv (q + 1/2).num (q + 1/2).den

/-- JS `String.prototype.toLowerCase`, restricted to the ASCII range used by
the calendar labels and service-type strings. -/
def lowerStr (s : List Char) : List Char :=
  s.map Char.toLower

/-- JS `String.prototype.includes`: `sub` occurs contiguously in `hay`. -/
def jsIncludes : List Char → List Char → Bool
  | [], sub => sub.isEmpty
  | hay@(_ :: t), sub => sub.isPrefixOf hay || jsIncludes t sub

/-- The substring `"mobiliario"` tested by `duracionPorTipoYVolumen`. -/
def mobiliarioMark : List Char := "mobiliario".data

/-- The substring `"mercancia"` tested by `duracionPorTipoYVolumen`. -/
def mercanciaMark : List Char := "mercancia".data

/-- The substring `"mudanza"` tested by `duracionPorTipoYVolumen`. -/
def mudanzaMark : List Char := "mudanza".data

/-- `duracionPorTipoYVolumen(tipoFlete, metrosCubicos)` from `src/server.js`
lines 38-58: service duration in hours from the service type and volume.
The first guard is the literal JS condition
`tipo.includes("mobiliario") || tipo.includes("mercancia") && tipo.includes("mobiliario")`
(JS `&&` binds tighter than `||`); `0.3333333` is the exact decimal. -/
def duracionPorTipoYVolumen (tipoFlete : List Char) (metrosCubicos : ℚ) : ℚ :=
  let tipo := lowerStr tipoFlete
  if jsIncludes tipo mobiliarioMark ||
      (jsIncludes tipo mercanciaMark && jsIncludes tipo mobiliarioMark) then
    3333333 / 10000000
  else if jsIncludes tipo mudanzaMark then
    if metrosCubicos ≤ 15/2 then 2
    else if metrosCubicos ≤ 12 then 5/2
    else if metrosCubicos ≤ 17 then 3
    else if metrosCubicos ≤ 26 then 4
    else if metrosCubicos ≤ 33 then 5
    else 6
  else 1

/-- `estimarDesplazamientoHoras(distanciaKm)` from `src/server.js` lines 61-68.
`none` models an absent/`null` distance. The JS guard
`if (distanciaKm && !isNaN(distanciaKm))` is falsy for the number `0`, so a
zero distance takes the fallback branch. -/
def estimarDesplazamientoHoras (distanciaKm : Option ℚ) : ℚ :=
  match distanciaKm with
  | some d => if d ≠ 0 then d / 35 else 1/2
  | none => 1/2

/-- `OPERATIVE_START_HOUR` from `src/server.js` line 71. -/
def OPERATIVE_START_HOUR : ℕ := 6

/-- `OPERATIVE_END_HOUR` from `src/server.js` line 72. -/
def OPERATIVE_END_HOUR : ℕ := 20

/-- The hour counter of the JS loop `for (let h = startH; h <= endH; h++)`. -/
def operativeHours (startH endH : ℕ) : List ℕ :=
  List.range' startH (endH + 1 - startH)

/-- The two slots pushed per hour iteration of the `slotsBase` loop
(`src/server.js` lines 109-116), as epoch-millisecond timestamps: the parsed
ISO strings `fecha T hh:00:00-05:00` and `fecha T hh:30:00-05:00` are
`dayStart + h` hours and `dayStart + h` hours `+ 30` minutes, where `dayStart`
is the parse of `fecha T00:00:00-05:00`. -/
def slotsOfHours (dayStart : ℤ) : List ℕ → List ℤ
  | [] => []
  | h :: rest =>
    (dayStart + (h : ℤ) * 3600000) ::
      (dayStart + (h : ℤ) * 3600000 + 1800000) :: slotsOfHours dayStart rest

/-- `slotsBase` from `src/server.js` lines 109-116: the candidate slot starts
for the requested date, given the date's local (UTC-5) midnight in epoch ms. -/
def slotsBase (dayStart : ℤ) : List ℤ :=
  slotsOfHours dayStart (operativeHours OPERATIVE_START_HOUR OPERATIVE_END_HOUR)

/-- The instant `fecha T00:00:00-05:00` in epoch ms, given the epoch ms of the
date's UTC midnight: the fixed UTC-5 anchor puts local midnight 5 hours later. -/
def dayStartMs (utcMidnight : ℤ) : ℤ :=
  utcMidnight + 5 * 3600000

/-- A booked interval `{ start: Date, end: Date }` built from a fetched event
(`src/server.js` lines 146-150), in epoch ms; `stop` embeds the JS field
`end` (a Lean keyword). -/
structure EventInterval where
  start : ℤ
  stop : ℤ
deriving DecidableEq

/-- JS `Date#getHours` for the instant `t` (epoch ms) on a server whose local
timezone is `off` ms east of UTC: Euclidean wrap into the day, then the hour. -/
def jsGetHours (off t : ℤ) : ℤ :=
  Int.fdiv ((t + off).emod 86400000) 3600000

/-- The slot end used by the search scan (`src/server.js` line 160):
`slotStart.getTime() + Math.round(estimatedServiceHours * 60 * 60 * 1000)`. -/
def slotEndMs (estH : ℚ) (slotStart : ℤ) : ℤ :=
  slotStart + jsRound (estH * 3600000)

/-- The per-slot test of the search loop (`src/server.js` lines 158-169): the
slot is kept when the operating-hours guard does not skip it and no booked
interval conflicts (`slotStart < ev.end && slotEnd > ev.start`). `off` is the
server's local timezone offset consumed by `Date#getHours`. -/
def slotOk (off : ℤ) (booked : List EventInterval) (estH : ℚ) (slotStart : ℤ) : Bool :=
  if jsGetHours off slotStart < (OPERATIVE_START_HOUR : ℤ) ||
      jsGetHours off (slotEndMs estH slotStart) > (OPERATIVE_END_HOUR : ℤ) + 1 then
    false
  else
    !(booked.any fun ev =>
        decide (slotStart < ev.stop) && decide (slotEndMs estH slotStart > ev.start))

/-- `availableSlots` accumulated by the search loop (`src/server.js`
lines 156-169): the candidate slots that survive `slotOk`. -/
def availableSlots (off : ℤ) (booked : List EventInterval) (estH : ℚ)
    (slots : List ℤ) : List ℤ :=
  slots.filter (slotOk off booked estH)

/-- A calendar resource as the search endpoint sees it: its id, its `summary`
label, and the day's events fetched for it from the external service, already
converted to intervals (`src/server.js` lines 131-150). -/
structure CalendarResource where
  id : List Char
  summary : List Char
  events : List EventInterval
deriving DecidableEq

/-- The substring `"inactivo"` excluded by the candidate filter. -/
def inactivoMark : List Char := "inactivo".data

/-- The substring `"pausado"` excluded by the candidate filter. -/
def pausadoMark : List Char := "pausado".data

/-- The `candidates` filter of `src/server.js` lines 98-106: lowercase the
summary; exclude empty labels, labels missing the (lowercased) origin city
when one was given, and labels carrying an inactive/paused marker. -/
def candidateFilter (ciudadOrigen : List Char) (c : CalendarResource) : Bool :=
  let s := lowerStr c.summary
  if s.isEmpty then false
  else if !ciudadOrigen.isEmpty && !jsIncludes s (lowerStr ciudadOrigen) then false
  else if jsIncludes s inactivoMark || jsIncludes s pausadoMark then false
  else true

/-- JS `String.prototype.trim` (ASCII whitespace, the range the labels use). -/
def jsTrim (s : List Char) : List Char :=
  ((s.dropWhile Char.isWhitespace).reverse.dropWhile Char.isWhitespace).reverse

/-- `(cal.summary || "").split("/").map(p => p.trim())` from `src/server.js`
line 121. -/
def summaryParts (summary : List Char) : List (List Char) :=
  (summary.splitOn '/').map jsTrim

/-- Decimal digit test used by the capacity regex `[0-9]`. -/
def isDigitCh (c : Char) : Bool :=
  '0' ≤ c && c ≤ '9'

/-- Numeric value of the digit list matched by the regex, most significant
digit first. -/
def digitsToNat (ds : List Char) : ℕ :=
  ds.foldl (fun a c => a * 10 + (c.toNat - 48)) 0

/-- The regex search `.match(/([0-9]+(?:\.[0-9]+)?)/)` followed by
`parseFloat` (`src/server.js` lines 124-125): the leftmost maximal digit run,
optionally extended by a dot and a further digit run, as an exact rational;
`none` when the string holds no digit. -/
def firstNumber : List Char → Option ℚ
  | [] => none
  | c :: t =>
    if isDigitCh c then
      let ds := (c :: t).takeWhile isDigitCh
      match (c :: t).dropWhile isDigitCh with
      | '.' :: r =>
        let fs := r.takeWhile isDigitCh
        if fs.isEmpty then some (digitsToNat ds)
        else some ((digitsToNat ds : ℚ) + (digitsToNat fs : ℚ) / 10 ^ fs.length)
      | _ => some (digitsToNat ds)
    else firstNumber t

/-- `calendarCode` from `src/server.js` line 122: `parts[2] || cal.summary`. -/
def calendarCode (c : CalendarResource) : List Char :=
  let p := (summaryParts c.summary).getD 2 []
  if p.isEmpty then c.summary else p

/-- `vehicleType` from `src/server.js` line 123: `parts[3] || ""`. -/
def vehicleType (c : CalendarResource) : List Char :=
  (summaryParts c.summary).getD 3 []

/-- `maxM3` from `src/server.js` lines 124-125: the first numeric token of
`parts[4]`, defaulting to `9999` when the match fails. -/
def maxM3 (c : CalendarResource) : ℚ :=
  match firstNumber ((summaryParts c.summary).getD 4 []) with
  | some q => q
  | none => 9999

/-- The inputs of one search request after parsing (`src/server.js` line 88):
the parsed `fecha T00:00:00-05:00` instant, the raw origin city, volume and
service type, and the server's local timezone offset consumed by
`Date#getHours` in the operating-hours guard. -/
structure SearchParams where
  dayStart : ℤ
  ciudadOrigen : List Char
  metrosCubicos : ℚ
  tipoFlete : List Char
  off : ℤ
deriving DecidableEq

/-- The success payload of `src/server.js` lines 173-182. -/
structure FoundCalendar where
  calendarId : List Char
  calendarCode : List Char
  vehicleType : List Char
  maxM3 : ℚ
  availableSlots : List ℤ
deriving DecidableEq

/-- The `availableSlots` the scan computes for calendar `c` under request `p`
(`src/server.js` lines 154-169): the service duration comes from the request's
type and volume, the candidate slots from the request's date. -/
def calSlots (p : SearchParams) (c : CalendarResource) : List ℤ :=
  availableSlots p.off c.events
    (duracionPorTipoYVolumen p.tipoFlete p.metrosCubicos) (slotsBase p.dayStart)

/-- One iteration of the candidate loop (`src/server.js` lines 119-184):
`continue` on insufficient capacity, return the response payload when
`availableSlots.length > 0`, else fall through to the next candidate. -/
def processCalendar (p : SearchParams) (c : CalendarResource) : Option FoundCalendar :=
  if maxM3 c < p.metrosCubicos then none
  else if 0 < (calSlots p c).length then
    some ⟨c.id, calendarCode c, vehicleType c, maxM3 c, calSlots p c⟩
  else none

/-- The candidate loop itself: first calendar whose iteration returns a
payload, in list order. -/
def searchScan (p : SearchParams) : List CalendarResource → Option FoundCalendar
  | [] => none
  | c :: rest =>
    match processCalendar p c with
    | some r => some r
    | none => searchScan p rest

/-- The whole search algorithm over the fetched calendar list
(`src/server.js` lines 98-187): filter to candidates, then scan; `none` is the
`{ available: false }` response. -/
def search (p : SearchParams) (cals : List CalendarResource) : Option FoundCalendar :=
  searchScan p (cals.filter (candidateFilter p.ciudadOrigen))

/-- The external `calendar.events.list({timeMin, timeMax})` call on a calendar
holding the intervals `evs`, per the documented Google Calendar semantics the
code relies on: an event is listed when it ends after `timeMin` and starts
before `timeMax`. -/
def listEvents (evs : List EventInterval) (timeMin timeMax : ℤ) : List EventInterval :=
  evs.filter fun e => decide (timeMin < e.stop) && decide (e.start < timeMax)

/-- The inputs of one reserve request after parsing (`src/server.js`
lines 211-221). `calendarId = []` models a missing/empty id (JS falsy);
`fecha`/`slotISO` are the parsed `fecha T00:00:00-05:00` and `slotISO`
instants, `none` when the field is missing or empty. -/
structure ReserveRequest where
  calendarId : List Char
  fecha : Option ℤ
  slotISO : Option ℤ
  tipoFlete : List Char
  metrosCubicos : ℚ
  distanciaKm : Option ℚ
deriving DecidableEq

/-- `bufferHoras` from `src/server.js` lines 233-242: `0` when the events
listed between day start and `slotISO` are empty (first service of the day),
else `1`. -/
def bufferHoras (evs : List EventInterval) (dayStart slotStart : ℤ) : ℚ :=
  if (listEvents evs dayStart slotStart).isEmpty then 0 else 1

/-- `duracionTotalHoras` from `src/server.js` line 244. -/
def duracionTotalHoras (req : ReserveRequest) (evs : List EventInterval)
    (dayStart slotStart : ℤ) : ℚ :=
  duracionPorTipoYVolumen req.tipoFlete req.metrosCubicos
    + estimarDesplazamientoHoras req.distanciaKm
    + bufferHoras evs dayStart slotStart

/-- The reservation end (`src/server.js` line 248):
`start.getTime() + Math.round(duracionTotalHoras * 60 * 60 * 1000)`. -/
def reserveEndMs (req : ReserveRequest) (evs : List EventInterval)
    (dayStart slotStart : ℤ) : ℤ :=
  slotStart + jsRound (duracionTotalHoras req evs dayStart slotStart * 3600000)

/-- The observable outcome of a reserve request: the 400 client error, the 409
conflict, or success carrying the returned start/end instants. -/
inductive ReserveOutcome where
  | clientError : ReserveOutcome
  | conflict : ReserveOutcome
  | success : ℤ → ℤ → ReserveOutcome
deriving DecidableEq

/-- The reserve endpoint (`src/server.js` lines 209-293) against a target
calendar holding the intervals `evs`: the outcome together with the calendar's
event list afterwards (`events.insert` appends the new interval). -/
def reserve (req : ReserveRequest) (evs : List EventInterval) :
    ReserveOutcome × List EventInterval :=
  match req.fecha, req.slotISO with
  | some dayStart, some slotStart =>
    if req.calendarId.isEmpty then (.clientError, evs)
    else
      let endMs := reserveEndMs req evs dayStart slotStart
      if !(listEvents evs slotStart endMs).isEmpty then (.conflict, evs)
      else (.success slotStart endMs, evs ++ [⟨slotStart, endMs⟩])
  | _, _ => (.clientError, evs)

/-- HTTP methods relevant to the app's routing table. -/
inductive HttpMethod where
  | GET : HttpMethod
  | POST : HttpMethod
deriving DecidableEq

/-- One registered Express route. -/
structure Route where
  method : HttpMethod
  path : List Char
deriving DecidableEq

/-- The path of the search endpoint. -/
def searchPath : List Char := "/api/calendar/search".data

/-- The path of the reserve endpoint. -/
def reservePath : List Char := "/api/calendar/reserve".data

/-- The app's complete routing table: `src/server.js` registers exactly
`app.post("/api/calendar/search")` (line 86) and
`app.post("/api/calendar/reserve")` (line 209); no other route or fallback
handler is installed. -/
def appRoutes : List Route :=
  [⟨.POST, searchPath⟩, ⟨.POST, reservePath⟩]

/-- Whether some registered route handles the request. -/
def hasRoute (m : HttpMethod) (p : List Char) : Bool :=
  appRoutes.any fun r => decide (r.method = m) && decide (r.path = p)

/-- Response status for a request, modelled from the Express 4 framework the
app runs on: a request matched by no registered route falls through to the
default final handler, which responds `404`; a matched request's status is
handler-determined (`none` here). -/
def dispatchStatus (m : HttpMethod) (p : List Char) : Option ℕ :=
  if hasRoute m p then none else some 404

lemma mem_availableSlots_no_overlap (off : ℤ) (booked : List EventInterval)
    (estH : ℚ) (slots : List ℤ) (s : ℤ)
    (hs : s ∈ availableSlots off booked estH slots) :
    ∀ ev ∈ booked, slotEndMs estH s ≤ ev.start ∨ ev.stop ≤ s := by
  intro ev hev
  have h2 : slotOk off booked estH s = true := (List.mem_filter.mp hs).2
  unfold slotOk at h2
  split at h2
  · simp at h2
  · simp only [Bool.not_eq_true', List.any_eq_false, Bool.and_eq_true,
      decide_eq_true_eq, not_and, not_lt] at h2
    have h3 := h2 ev hev
    by_cases hlt : s < ev.stop
    · exact Or.inl (h3 hlt)
    · exact Or.inr (le_of_not_lt hlt)

/-- C3: for a service type containing the `mudanza` marker and not the
`mobiliario` marker, the service hours follow the inclusive monotone step
function of volume: `≤ 7.5 → 2`, `≤ 12 → 2.5`, `≤ 17 → 3`, `≤ 26 → 4`,
`≤ 33 → 5`, else `6`. -/
theorem duracion_mudanza_step (tipo : List Char) (m : ℚ)
    (hmud : jsIncludes (lowerStr tipo) mudanzaMark = true)
    (hmob : jsIncludes (lowerStr tipo) mobiliarioMark = false) :
    (m ≤ 15/2 → duracionPorTipoYVolumen tipo m = 2) ∧
    (15/2 < m → m ≤ 12 → duracionPorTipoYVolumen tipo m = 5/2) ∧
    (12 < m → m ≤ 17 → duracionPorTipoYVolumen tipo m = 3) ∧
    (17 < m → m ≤ 26 → duracionPorTipoYVolumen tipo m = 4) ∧
    (26 < m → m ≤ 33 → duracionPorTipoYVolumen tipo m = 5) ∧
    (33 < m → duracionPorTipoYVolumen tipo m = 6) ∧
    (∀ m1 m2 : ℚ, m1 ≤ m2 →
      duracionPorTipoYVolumen tipo m1 ≤ duracionPorTipoYVolumen tipo m2) := by
  have hstep : ∀ x : ℚ, duracionPorTipoYVolumen tipo x =
      if x ≤ 15/2 then 2 else if x ≤ 12 then 5/2 else if x ≤ 17 then 3
      else if x ≤ 26 then 4 else if x ≤ 33 then 5 else 6 := by
    intro x
    simp [duracionPorTipoYVolumen, hmud, hmob]
  refine ⟨?_, ?_, ?_, ?_, ?_, ?_, ?_⟩
  · intro h; rw [hstep, if_pos h]
  · intro h1 h2; rw [hstep, if_neg (by linarith), if_pos h2]
  · intro h1 h2; rw [hstep, if_neg (by linarith), if_neg (by linarith), if_pos h2]
  · intro h1 h2
    rw [hstep, if_neg (by linarith), if_neg (by linarith), if_neg (by linarith), if_pos h2]
  · intro h1 h2
    rw [hstep, if_neg (by linarith), if_neg (by linarith), if_neg (by linarith),
      if_neg (by linarith), if_pos h2]
  · intro h
    rw [hstep, if_neg (by linarith), if_neg (by linarith), if_neg (by linarith),
      if_neg (by linarith), if_neg (by linarith)]
  · intro m1 m2 h
    rw [hstep, hstep]
    split_ifs <;> linarith

/-- Witness for C3: the type `"mudanza"` at volume 10 lands in the
`≤ 12 → 2.5h` bucket. -/
theorem duracion_mudanza_step_witness :
    duracionPorTipoYVolumen mudanzaMark 10 = 5/2 :=
  (duracion_mudanza_step mudanzaMark 10 (by decide) (by decide)).2.1
    (by norm_num) (by norm_num)

/-- Counterexample to C7 as stated: `0` is a finite numeric distance, yet the
JS truthiness guard sends it to the `0.5` fallback instead of `0 / 35 = 0`. -/
theorem estimarDesplazamiento_zero_cx :
    estimarDesplazamientoHoras (some 0) = 1/2 ∧ (1/2 : ℚ) ≠ 0 / 35 := by
  constructor
  · rfl
  · norm_num

/-- C7 as amended: every nonzero finite numeric distance yields `d / 35`;
a zero or absent distance yields the `0.5` fallback. Total by construction. -/
theorem estimarDesplazamiento_spec (d : ℚ) :
    (d ≠ 0 → estimarDesplazamientoHoras (some d) = d / 35) ∧
    estimarDesplazamientoHoras (some 0) = 1/2 ∧
    estimarDesplazamientoHoras none = 1/2 := by
  refine ⟨fun hd => ?_, rfl, rfl⟩
  simp [estimarDesplazamientoHoras, hd]

/-- Witness for C7 at the spec's own example: 70 km gives 2 hours. -/
theorem estimarDesplazamiento_spec_witness :
    estimarDesplazamientoHoras (some 70) = 70 / 35 :=
  (estimarDesplazamiento_spec 70).1 (by norm_num)

/-- Counterexample to C9 as stated: no route handles `GET
/api/calendar/search`, so Express's default final handler answers `404`,
not `405`. -/
theorem getSearch_status_cx :
    dispatchStatus .GET searchPath = some 404 ∧ (404 : ℕ) ≠ 405 := by
  constructor
  · decide
  · decide

/-- C9 as amended: `GET /api/calendar/search` matches no registered route and
therefore receives the Express default `404` not-found response. -/
theorem getSearch_status :
    hasRoute .GET searchPath = false ∧ dispatchStatus .GET searchPath = some 404 := by
  constructor
  · decide
  · decide

/-- A candidate calendar whose fifth label field, `grande`, holds no digit, so
the capacity regex match fails. -/
def calNoCapacity : CalendarResource :=
  ⟨"calA".data, "activo / pereira / tua / furgon / grande".data, []⟩

/-- A search request for 10000 cubic meters from Pereira. -/
def pBig : SearchParams :=
  ⟨0, "pereira".data, 10000, [], 0⟩

/-- A search request for 5 cubic meters from Pereira. -/
def pSmall : SearchParams :=
  ⟨0, "pereira".data, 5, [], 0⟩

/-- Counterexample to C8 as stated: the unparseable capacity defaults to the
finite sentinel `9999`, not to unlimited, so a requested volume of `10000`
skips the calendar even though the same calendar (fully free) is returned for
a small volume. -/
theorem maxM3_unlimited_cx :
    firstNumber ((summaryParts calNoCapacity.summary).getD 4 []) = none ∧
    maxM3 calNoCapacity = 9999 ∧
    search pBig [calNoCapacity] = none ∧
    search pSmall [calNoCapacity] ≠ none := by
  have h1 : firstNumber ((summaryParts calNoCapacity.summary).getD 4 []) = none := by
    decide
  refine ⟨h1, ?_, ?_, ?_⟩
  · unfold maxM3
    rw [h1]
  · with_unfolding_all decide
  · with_unfolding_all decide

/-- C8 as amended: an unparseable capacity field defaults to `9999`, so the
capacity filter keeps the calendar for every requested volume up to `9999`
(and only up to that sentinel). -/
theorem maxM3_fallback (c : CalendarResource) (vol : ℚ)
    (hnone : firstNumber ((summaryParts c.summary).getD 4 []) = none) :
    maxM3 c = 9999 ∧ (vol ≤ 9999 → ¬ maxM3 c < vol) := by
  have h : maxM3 c = 9999 := by
    unfold maxM3
    rw [hnone]
  refine ⟨h, fun hv => ?_⟩
  rw [h]
  exact not_lt.mpr hv

/-- Witness for C8: the digit-free capacity field yields `9999`, which passes
the capacity test for a requested volume of 500. -/
theorem maxM3_fallback_witness :
    maxM3 calNoCapacity = 9999 ∧ ¬ maxM3 calNoCapacity < 500 := by
  have h := maxM3_fallback calNoCapacity 500 (by decide)
  exact ⟨h.1, h.2 (by norm_num)⟩

lemma isEmpty_false_of_ne_nil {α : Type} {l : List α} (h : l ≠ []) :
    l.isEmpty = false := by
  cases l with
  | nil => exact absurd rfl h
  | cons a t => rfl

/-- C2: the reserve computation uses buffer `0` when no event is listed
between the day's start and `slotStart` on the target calendar and buffer `1`
otherwise, and the computed booking end is `slotStart` plus
`serviceHours + travelHours + buffer` (in ms, with the code's `Math.round`). -/
theorem reserve_buffer_end (req : ReserveRequest) (evs : List EventInterval)
    (dayStart slotStart : ℤ) :
    (listEvents evs dayStart slotStart = [] →
      bufferHoras evs dayStart slotStart = 0 ∧
      reserveEndMs req evs dayStart slotStart =
        slotStart + jsRound ((duracionPorTipoYVolumen req.tipoFlete req.metrosCubicos
          + estimarDesplazamientoHoras req.distanciaKm + 0) * 3600000)) ∧
    (listEvents evs dayStart slotStart ≠ [] →
      bufferHoras evs dayStart slotStart = 1 ∧
      reserveEndMs req evs dayStart slotStart =
        slotStart + jsRound ((duracionPorTipoYVolumen req.tipoFlete req.metrosCubicos
          + estimarDesplazamientoHoras req.distanciaKm + 1) * 3600000)) := by
  constructor
  · intro h
    have hb : bufferHoras evs dayStart slotStart = 0 := by
      simp [bufferHoras, h]
    exact ⟨hb, by simp [reserveEndMs, duracionTotalHoras, hb]⟩
  · intro h
    have hb : bufferHoras evs dayStart slotStart = 1 := by
      simp [bufferHoras, isEmpty_false_of_ne_nil h]
    exact ⟨hb, by simp [reserveEndMs, duracionTotalHoras, hb]⟩

/-- A concrete reserve request: calendar `cal1`, day start at epoch 0, slot
06:00 local, default service type, volume 0, no distance. -/
def reqEx : ReserveRequest :=
  ⟨"cal1".data, some 0, some 21600000, [], 0, none⟩

/-- Witness for C2: with no prior event the buffer is 0; with one prior event
the buffer is 1 and the end lands `1h + 0.5h + 1h` after the 06:00 slot. -/
theorem reserve_buffer_end_witness :
    bufferHoras ([] : List EventInterval) 0 21600000 = 0 ∧
    bufferHoras [⟨0, 3600000⟩] 0 21600000 = 1 ∧
    reserveEndMs reqEx [⟨0, 3600000⟩] 0 21600000 = 30600000 := by
  have h0 := (reserve_buffer_end reqEx [] 0 21600000).1 (by decide)
  have h1 := (reserve_buffer_end reqEx [⟨0, 3600000⟩] 0 21600000).2 (by decide)
  refine ⟨h0.1, h1.1, ?_⟩
  rw [h1.2]
  with_unfolding_all decide

/-- C5: with `calendarId`, `fecha` and `slotISO` present, a non-empty re-fetch
of events in `[slotStart, computed end]` yields the 409 conflict with the
calendar unchanged; an empty re-fetch yields success with exactly one event
appended. -/
theorem reserve_conflict_atomic (req : ReserveRequest) (evs : List EventInterval)
    (dayStart slotStart : ℤ)
    (hcal : req.calendarId ≠ [])
    (hf : req.fecha = some dayStart) (hs : req.slotISO = some slotStart) :
    (listEvents evs slotStart (reserveEndMs req evs dayStart slotStart) ≠ [] →
      reserve req evs = (.conflict, evs)) ∧
    (listEvents evs slotStart (reserveEndMs req evs dayStart slotStart) = [] →
      reserve req evs =
        (.success slotStart (reserveEndMs req evs dayStart slotStart),
          evs ++ [⟨slotStart, reserveEndMs req evs dayStart slotStart⟩]) ∧
      (evs ++ [EventInterval.mk slotStart (reserveEndMs req evs dayStart slotStart)]).length
        = evs.length + 1) := by
  have hid : req.calendarId.isEmpty = false := isEmpty_false_of_ne_nil hcal
  constructor
  · intro h
    simp [reserve, hf, hs, hid, isEmpty_false_of_ne_nil h]
  · intro h
    refine ⟨by simp [reserve, hf, hs, hid, h], by simp⟩

/-- Witness for C5: a booking 06:00-07:00 local sits inside the recheck window
of a 06:00 request, so the request is rejected and the calendar untouched. -/
theorem reserve_conflict_atomic_witness :
    reserve reqEx [⟨21600000, 25200000⟩] = (.conflict, [⟨21600000, 25200000⟩]) := by
  have hE : reserveEndMs reqEx [⟨21600000, 25200000⟩] 0 21600000 = 27000000 := by
    with_unfolding_all decide
  refine (reserve_conflict_atomic reqEx [⟨21600000, 25200000⟩] 0 21600000
    (by decide) rfl rfl).1 ?_
  rw [hE]
  decide

/-- C10: the reserve path validates `slotISO` only for presence: for any
parseable `slotStart` whatsoever — the theorem places no constraint tying it
to the 30-minute grid, the operating hours, or the given date — an empty
recheck window yields a created event starting exactly at `slotStart`. -/
theorem reserve_accepts_any_slot (req : ReserveRequest) (evs : List EventInterval)
    (dayStart slotStart : ℤ)
    (hcal : req.calendarId ≠ [])
    (hf : req.fecha = some dayStart) (hs : req.slotISO = some slotStart)
    (hfree : listEvents evs slotStart (reserveEndMs req evs dayStart slotStart) = []) :
    reserve req evs =
      (.success slotStart (reserveEndMs req evs dayStart slotStart),
        evs ++ [⟨slotStart, reserveEndMs req evs dayStart slotStart⟩]) := by
  have hid : req.calendarId.isEmpty = false := isEmpty_false_of_ne_nil hcal
  simp [reserve, hf, hs, hid, hfree]

lemma slotsBase_eq_map (d : ℤ) :
    slotsBase d = (List.range 30).map fun i : ℕ => d + 21600000 + 1800000 * (i : ℤ) := by
  have h1 : operativeHours OPERATIVE_START_HOUR OPERATIVE_END_HOUR =
      [6, 7, 8, 9, 10, 11, 12, 13, 14, 15, 16, 17, 18, 19, 20] := by decide
  have h2 : List.range 30 =
      [0, 1, 2, 3, 4, 5, 6, 7, 8, 9, 10, 11, 12, 13, 14, 15, 16, 17, 18, 19,
       20, 21, 22, 23, 24, 25, 26, 27, 28, 29] := by decide
  rw [slotsBase, h1, h2]
  simp only [slotsOfHours, List.map_cons, List.map_nil, List.cons.injEq, and_true]
  push_cast
  omega

lemma mem_slotsBase_decompose (d s : ℤ) (hs : s ∈ slotsBase d) :
    ∃ i : ℕ, i < 30 ∧ d + 21600000 + 1800000 * (i : ℤ) = s := by
  rw [slotsBase_eq_map] at hs
  simpa using hs

/-- C6: for any date (given by its UTC midnight `u`), the generated candidate
sequence has exactly `2*(endHour-startHour+1) = 30` entries, is strictly
ascending, and every entry is the UTC-5-anchored day start plus a whole
operating hour between 6 and 20 at minute `:00` or `:30`. -/
theorem slotsBase_spec (u : ℤ) :
    (slotsBase (dayStartMs u)).length = 2 * (OPERATIVE_END_HOUR - OPERATIVE_START_HOUR + 1) ∧
    (slotsBase (dayStartMs u)).length = 30 ∧
    (slotsBase (dayStartMs u)).Pairwise (· < ·) ∧
    ∀ s ∈ slotsBase (dayStartMs u), ∃ hh mm : ℕ,
      OPERATIVE_START_HOUR ≤ hh ∧ hh ≤ OPERATIVE_END_HOUR ∧ (mm = 0 ∨ mm = 30) ∧
      s = dayStartMs u + (hh : ℤ) * 3600000 + (mm : ℤ) * 60000 := by
  refine ⟨rfl, rfl, ?_, ?_⟩
  · rw [slotsBase_eq_map, List.pairwise_map]
    exact (List.pairwise_lt_range 30).imp fun {a b} h => by omega
  · intro s hs
    obtain ⟨i, hi30, hseq⟩ := mem_slotsBase_decompose (dayStartMs u) s hs
    refine ⟨OPERATIVE_START_HOUR + i / 2, 30 * (i % 2), by omega, ?_, by omega, ?_⟩
    · unfold OPERATIVE_START_HOUR OPERATIVE_END_HOUR
      omega
    · rw [← hseq]
      unfold OPERATIVE_START_HOUR
      push_cast
      omega

/-- Witness for C6: the first generated slot of the epoch day is 06:00 local,
a member of the sequence that decomposes as required. -/
theorem slotsBase_spec_witness :
    39600000 ∈ slotsBase (dayStartMs 0) ∧
    ∃ hh mm : ℕ, OPERATIVE_START_HOUR ≤ hh ∧ hh ≤ OPERATIVE_END_HOUR ∧
      (mm = 0 ∨ mm = 30) ∧
      (39600000 : ℤ) = dayStartMs 0 + (hh : ℤ) * 3600000 + (mm : ℤ) * 60000 :=
  ⟨by decide, (slotsBase_spec 0).2.2.2 39600000 (by decide)⟩

lemma jsIncludes_nil (hay : List Char) : jsIncludes hay [] = true := by
  cases hay with
  | nil => rfl
  | cons a t => rfl

lemma candidateFilter_iff (city : List Char) (c : CalendarResource) :
    candidateFilter city c = true ↔
      (c.summary ≠ [] ∧
       jsIncludes (lowerStr c.summary) (lowerStr city) = true ∧
       jsIncludes (lowerStr c.summary) inactivoMark = false ∧
       jsIncludes (lowerStr c.summary) pausadoMark = false) := by
  by_cases hs : c.summary = []
  · simp [candidateFilter, hs, lowerStr]
  · have hse : (lowerStr c.summary).isEmpty = false :=
      isEmpty_false_of_ne_nil (by simpa [lowerStr] using hs)
    by_cases hcity : city = []
    · subst hcity
      cases hin : jsIncludes (lowerStr c.summary) inactivoMark <;>
        cases hpa : jsIncludes (lowerStr c.summary) pausadoMark <;>
          simp [candidateFilter, hse, hin, hpa, hs, jsIncludes_nil,
            show lowerStr ([] : List Char) = [] from rfl]
    · have hce : city.isEmpty = false := isEmpty_false_of_ne_nil hcity
      cases hc : jsIncludes (lowerStr c.summary) (lowerStr city) <;>
        cases hin : jsIncludes (lowerStr c.summary) inactivoMark <;>
          cases hpa : jsIncludes (lowerStr c.summary) pausadoMark <;>
            simp [candidateFilter, hse, hce, hc, hin, hpa, hs]

lemma processCalendar_none_iff (p : SearchParams) (c : CalendarResource) :
    processCalendar p c = none ↔
      maxM3 c < p.metrosCubicos ∨ calSlots p c = [] := by
  unfold processCalendar
  split_ifs with h1 h2
  · simp [h1]
  · simp [h1, List.length_pos.mp h2]
  · have he : calSlots p c = [] := List.length_eq_zero.mp (by omega)
    simp [h1, he]

lemma processCalendar_some_iff (p : SearchParams) (c : CalendarResource)
    (r : FoundCalendar) :
    processCalendar p c = some r ↔
      (¬ maxM3 c < p.metrosCubicos ∧ calSlots p c ≠ [] ∧
       r = ⟨c.id, calendarCode c, vehicleType c, maxM3 c, calSlots p c⟩) := by
  unfold processCalendar
  split_ifs with h1 h2
  · simp [h1]
  · simp [h1, List.length_pos.mp h2, eq_comm]
  · have he : calSlots p c = [] := List.length_eq_zero.mp (by omega)
    simp [h1, he]

lemma searchScan_eq_some (p : SearchParams) :
    ∀ (l : List CalendarResource) (r : FoundCalendar), searchScan p l = some r →
      ∃ pre c post, l = pre ++ c :: post ∧
        (∀ c2 ∈ pre, processCalendar p c2 = none) ∧
        processCalendar p c = some r := by
  intro l
  induction l with
  | nil => intro r h; simp [searchScan] at h
  | cons a t ih =>
    intro r h
    simp only [searchScan] at h
    cases hp : processCalendar p a with
    | some r2 =>
      rw [hp] at h
      have h2 : r2 = r := by simpa using h
      subst h2
      exact ⟨[], a, t, rfl, by simp, hp⟩
    | none =>
      rw [hp] at h
      have h2 : searchScan p t = some r := by simpa using h
      obtain ⟨pre, c, post, heq, hpre, hc⟩ := ih r h2
      refine ⟨a :: pre, c, post, by rw [heq, List.cons_append], ?_, hc⟩
      intro c2 hc2
      rcases List.mem_cons.mp hc2 with rfl | hm
      · exact hp
      · exact hpre c2 hm

/-- C4: when the search succeeds, (i) the candidate set is exactly the
calendars whose label is non-empty, contains the origin city
case-insensitively, and carries neither the `inactivo` nor the `pausado`
marker, and (ii) the returned calendar is the first candidate, in fetched
list order, that passes the capacity test and has a surviving slot; every
earlier candidate failed capacity or had no surviving slot, the full
surviving-slot list is returned, and later candidates cannot influence the
result. -/
theorem search_first_fit (p : SearchParams) (cals : List CalendarResource)
    (r : FoundCalendar) (h : search p cals = some r) :
    (∀ c : CalendarResource, candidateFilter p.ciudadOrigen c = true ↔
      (c.summary ≠ [] ∧
       jsIncludes (lowerStr c.summary) (lowerStr p.ciudadOrigen) = true ∧
       jsIncludes (lowerStr c.summary) inactivoMark = false ∧
       jsIncludes (lowerStr c.summary) pausadoMark = false)) ∧
    ∃ pre c post,
      cals.filter (candidateFilter p.ciudadOrigen) = pre ++ c :: post ∧
      (∀ c2 ∈ pre, maxM3 c2 < p.metrosCubicos ∨ calSlots p c2 = []) ∧
      ¬ maxM3 c < p.metrosCubicos ∧
      calSlots p c ≠ [] ∧
      r = ⟨c.id, calendarCode c, vehicleType c, maxM3 c, calSlots p c⟩ := by
  refine ⟨fun c => candidateFilter_iff p.ciudadOrigen c, ?_⟩
  have hscan : searchScan p (cals.filter (candidateFilter p.ciudadOrigen)) = some r := h
  obtain ⟨pre, c, post, heq, hpre, hc⟩ := searchScan_eq_some p _ r hscan
  obtain ⟨h1, h2, h3⟩ := (processCalendar_some_iff p c r).mp hc
  exact ⟨pre, c, post, heq,
    fun c2 hc2 => (processCalendar_none_iff p c2).mp (hpre c2 hc2), h1, h2, h3⟩

/-- A paused Pereira calendar, excluded by the candidate filter. -/
def calPaused : CalendarResource :=
  ⟨"calP".data, "pausado / pereira / aa / van / 9".data, []⟩

/-- An active Pereira calendar too small for the witness request. -/
def calSmallCap : CalendarResource :=
  ⟨"calS".data, "activo / pereira / bb / van / 3".data, []⟩

/-- The active Pereira calendar the witness search selects. -/
def calChosen : CalendarResource :=
  ⟨"calC".data, "activo / pereira / cc / van / 12".data, []⟩

/-- A later active Pereira calendar the witness search never reaches. -/
def calLater : CalendarResource :=
  ⟨"calL".data, "activo / pereira / dd / van / 99".data, []⟩

/-- The witness search request: epoch day, Pereira, 5 cubic meters. -/
def pWitness : SearchParams :=
  ⟨0, "pereira".data, 5, [], 0⟩

/-- The payload the witness search returns, i.e. the third calendar. -/
def rWitness : FoundCalendar :=
  ⟨calChosen.id, calendarCode calChosen, vehicleType calChosen, maxM3 calChosen,
    calSlots pWitness calChosen⟩

/-- Witness for C4 on a four-calendar list: one filtered out, one skipped for
capacity, the third chosen, the fourth never consulted. -/
theorem search_first_fit_witness :
    (∀ c : CalendarResource, candidateFilter pWitness.ciudadOrigen c = true ↔
      (c.summary ≠ [] ∧
       jsIncludes (lowerStr c.summary) (lowerStr pWitness.ciudadOrigen) = true ∧
       jsIncludes (lowerStr c.summary) inactivoMark = false ∧
       jsIncludes (lowerStr c.summary) pausadoMark = false)) ∧
    ∃ pre c post,
      [calPaused, calSmallCap, calChosen, calLater].filter
          (candidateFilter pWitness.ciudadOrigen) = pre ++ c :: post ∧
      (∀ c2 ∈ pre, maxM3 c2 < pWitness.metrosCubicos ∨ calSlots pWitness c2 = []) ∧
      ¬ maxM3 c < pWitness.metrosCubicos ∧
      calSlots pWitness c ≠ [] ∧
      rWitness = ⟨c.id, calendarCode c, vehicleType c, maxM3 c, calSlots pWitness c⟩ := by
  have hfilt : [calPaused, calSmallCap, calChosen, calLater].filter
      (candidateFilter pWitness.ciudadOrigen) = [calSmallCap, calChosen, calLater] := by
    decide
  have hlt : maxM3 calSmallCap < pWitness.metrosCubicos := by
    with_unfolding_all decide
  have hnlt : ¬ maxM3 calChosen < pWitness.metrosCubicos := by
    with_unfolding_all decide
  have hpos : 0 < (calSlots pWitness calChosen).length := by
    with_unfolding_all decide
  have hskip : processCalendar pWitness calSmallCap = none := by
    unfold processCalendar
    rw [if_pos hlt]
  have hsome : processCalendar pWitness calChosen = some rWitness := by
    unfold processCalendar
    rw [if_neg hnlt, if_pos hpos]
    rfl
  have h : search pWitness [calPaused, calSmallCap, calChosen, calLater] = some rWitness := by
    show searchScan pWitness _ = some rWitness
    rw [hfilt]
    simp only [searchScan, hskip, hsome]
  exact search_first_fit pWitness [calPaused, calSmallCap, calChosen, calLater] rWitness h

/-- C1: for every successful search request, the chosen calendar is one of the
fetched calendars and every slot start returned in `availableSlots` is
non-overlapping with every booked interval fetched for that calendar that
day: with `slotEnd = slotStart + estimatedServiceHours` (in ms, with the
code's `Math.round`), either `slotEnd ≤ bookedStart` or
`slotStart ≥ bookedEnd`. -/
theorem search_slots_no_overlap (p : SearchParams) (cals : List CalendarResource)
    (r : FoundCalendar) (h : search p cals = some r) :
    ∃ c, c ∈ cals ∧ r.calendarId = c.id ∧
      ∀ s ∈ r.availableSlots, ∀ ev ∈ c.events,
        slotEndMs (duracionPorTipoYVolumen p.tipoFlete p.metrosCubicos) s ≤ ev.start ∨
        ev.stop ≤ s := by
  have hscan : searchScan p (cals.filter (candidateFilter p.ciudadOrigen)) = some r := h
  obtain ⟨pre, c, post, heq, hpre, hc⟩ := searchScan_eq_some p _ r hscan
  obtain ⟨h1, h2, h3⟩ := (processCalendar_some_iff p c r).mp hc
  have hmem : c ∈ cals.filter (candidateFilter p.ciudadOrigen) := by
    rw [heq]
    exact List.mem_append.mpr (Or.inr (List.mem_cons_self c post))
  subst h3
  refine ⟨c, (List.mem_filter.mp hmem).1, rfl, ?_⟩
  intro s hs ev hev
  exact mem_availableSlots_no_overlap p.off c.events
    (duracionPorTipoYVolumen p.tipoFlete p.metrosCubicos) (slotsBase p.dayStart) s hs ev hev

/-- The search request for the C1 witness: epoch day, Pereira, 5 cubic
meters. -/
def pBooked : SearchParams :=
  ⟨0, "pereira".data, 5, [], 0⟩

/-- A Pereira calendar already booked 06:00-07:00 local on the epoch day. -/
def calBooked : CalendarResource :=
  ⟨"calB".data, "activo / pereira / ee / van / 12".data, [⟨21600000, 25200000⟩]⟩

/-- The payload the C1 witness search returns. -/
def rBooked : FoundCalendar :=
  ⟨calBooked.id, calendarCode calBooked, vehicleType calBooked, maxM3 calBooked,
    calSlots pBooked calBooked⟩

/-- Witness for C1: searching the epoch day against the partly booked
calendar yields a payload whose every slot misses the 06:00-07:00 booking. -/
theorem search_slots_no_overlap_witness :
    ∃ c, c ∈ [calBooked] ∧ rBooked.calendarId = c.id ∧
      ∀ s ∈ rBooked.availableSlots, ∀ ev ∈ c.events,
        slotEndMs (duracionPorTipoYVolumen pBooked.tipoFlete pBooked.metrosCubicos) s ≤
          ev.start ∨ ev.stop ≤ s := by
  have hnlt : ¬ maxM3 calBooked < pBooked.metrosCubicos := by
    with_unfolding_all decide
  have hpos : 0 < (calSlots pBooked calBooked).length := by
    with_unfolding_all decide
  have hfilt : [calBooked].filter (candidateFilter pBooked.ciudadOrigen) = [calBooked] := by
    decide
  have hsome : processCalendar pBooked calBooked = some rBooked := by
    unfold processCalendar
    rw [if_neg hnlt, if_pos hpos]
    rfl
  have h : search pBooked [calBooked] = some rBooked := by
    show searchScan pBooked _ = some rBooked
    rw [hfilt]
    simp only [searchScan, hsome]
  exact search_slots_no_overlap pBooked [calBooked] rBooked h

/-- A reserve request whose slot start is three days after its `fecha`, at
07:13 local — off the grid and outside the searched day. -/
def reqOffGrid : ReserveRequest :=
  ⟨"cal1".data, some 0, some 285180000, [], 0, none⟩

/-- Witness for C10: the off-grid, wrong-day slot is accepted verbatim and the
created event starts exactly there. -/
theorem reserve_accepts_any_slot_witness :
    reserve reqOffGrid [] = (.success 285180000 290580000, [⟨285180000, 290580000⟩]) := by
  have hE : reserveEndMs reqOffGrid [] 0 285180000 = 290580000 := by
    with_unfolding_all decide
  have h := reserve_accepts_any_slot reqOffGrid [] 0 285180000 (by decide) rfl rfl rfl
  rw [hE] at h
  exact h
